import Mathlib

set_option maxRecDepth 8000

/-!
Verification of the `org-osbuild-http` source module of osbuild
(`src/modules/src/sources/org-osbuild-http/src/main.rs`) and of the
`copy_tree` filesystem utility (`src/library/osbuild/src/utility/filesystem.rs`).

The development shallowly embeds the Rust code: each Rust function becomes a
Lean function over explicit state; operating-system results (socket I/O,
directory opens) are inputs; a Rust `panic!`/`unwrap` abort is an `Except`
error of type `PanicMsg`, kept distinct from an `io::Result` error of type
`IOError` that a function returns to its caller.

To reason about the wire format ("every payload is a JSON Envelope", "the
dumped schema text is well-formed JSON") we also define a small executable
JSON parser.  It covers objects, arrays, strings with the common escapes,
booleans, null and integer numbers; none of the concrete texts analysed in
this file contain fractional numbers or `\u` escapes, so this restriction is
immaterial here.
-/

/-- A parsed JSON value.  Objects keep their members in textual order. -/
inductive Json where
  | null
  | bool (b : Bool)
  | num (n : Int)
  | str (s : String)
  | arr (elems : List Json)
  | obj (members : List (String × Json))
deriving Inhabited

mutual

/-- Structural equality of JSON values (member order is significant). -/
def Json.beq : Json → Json → Bool
  | .null, .null => true
  | .bool a, .bool b => a == b
  | .num a, .num b => a == b
  | .str a, .str b => a == b
  | .arr a, .arr b => Json.beqArr a b
  | .obj a, .obj b => Json.beqObj a b
  | _, _ => false

/-- Pointwise `Json.beq` on arrays. -/
def Json.beqArr : List Json → List Json → Bool
  | [], [] => true
  | a :: la, b :: lb => Json.beq a b && Json.beqArr la lb
  | _, _ => false

/-- Pointwise `Json.beq` on object member lists, comparing keys and values. -/
def Json.beqObj : List (String × Json) → List (String × Json) → Bool
  | [], [] => true
  | (k, v) :: la, (l, w) :: lb => k == l && Json.beq v w && Json.beqObj la lb
  | _, _ => false

end

/-- The double-quote character. -/
def quoteChar : Char := Char.ofNat 34

/-- The backslash character. -/
def backslashChar : Char := Char.ofNat 92

/-- The opening-brace character. -/
def openBraceChar : Char := Char.ofNat 123

/-- The closing-brace character. -/
def closeBraceChar : Char := Char.ofNat 125

/-- JSON insignificant whitespace. -/
def isWsChar (c : Char) : Bool := c == ' ' || c == '\n' || c == '\t' || c == '\r'

/-- Drop leading whitespace. -/
def dropWs : List Char → List Char
  | [] => []
  | c :: cs => if isWsChar c then dropWs cs else c :: cs

/-- The character denoted by a single-character JSON string escape. -/
def escapeOf (c : Char) : Option Char :=
  if c == quoteChar then some quoteChar
  else if c == backslashChar then some backslashChar
  else if c == '/' then some '/'
  else if c == 'n' then some (Char.ofNat 10)
  else if c == 't' then some (Char.ofNat 9)
  else if c == 'r' then some (Char.ofNat 13)
  else none

/-- Scan the body of a JSON string after the opening quote: returns the decoded
content characters and the input remaining after the closing quote. -/
def scanString (cs : List Char) : Option (List Char × List Char) :=
  match cs with
  | [] => none
  | c :: cs1 =>
    if c == quoteChar then some ([], cs1)
    else if c == backslashChar then
      match cs1 with
      | [] => none
      | e :: cs2 =>
        match escapeOf e, scanString cs2 with
        | some ec, some (body, rest) => some (ec :: body, rest)
        | _, _ => none
    else
      match scanString cs1 with
      | some (body, rest) => some (c :: body, rest)
      | none => none

/-- Decimal digit test. -/
def isDigitChar (c : Char) : Bool := '0' ≤ c && c ≤ '9'

/-- Split off a maximal run of leading decimal digits. -/
def scanDigits (cs : List Char) : List Char × List Char :=
  match cs with
  | [] => ([], [])
  | c :: cs1 =>
    if isDigitChar c then
      let (ds, r) := scanDigits cs1
      (c :: ds, r)
    else ([], c :: cs1)

/-- Value of a digit run. -/
def digitsVal (ds : List Char) : Nat :=
  ds.foldl (fun a c => a * 10 + (c.toNat - 48)) 0

/-- Strip an expected literal character sequence, or fail. -/
def dropLead : List Char → List Char → Option (List Char)
  | [], rest => some rest
  | p :: ps, c :: cs => if c == p then dropLead ps cs else none
  | _ :: _, [] => none

mutual

/-- Fueled recursive-descent parse of one JSON value; returns the value and the
unconsumed remainder.  Every recursive call spends one unit of fuel, so fuel
`length + 2` suffices for any input. -/
def parseValue : Nat → List Char → Option (Json × List Char)
  | 0, _ => none
  | f + 1, cs0 =>
    match dropWs cs0 with
    | [] => none
    | c :: rest =>
      if c == quoteChar then
        match scanString rest with
        | some (body, r) => some (.str ⟨body⟩, r)
        | none => none
      else if c == openBraceChar then
        match parseMembers f true (dropWs rest) with
        | some (ms, r) => some (.obj ms, r)
        | none => none
      else if c == '[' then
        match parseElems f true (dropWs rest) with
        | some (es, r) => some (.arr es, r)
        | none => none
      else if c == 't' then
        match dropLead ['r', 'u', 'e'] rest with
        | some r => some (.bool true, r)
        | none => none
      else if c == 'f' then
        match dropLead ['a', 'l', 's', 'e'] rest with
        | some r => some (.bool false, r)
        | none => none
      else if c == 'n' then
        match dropLead ['u', 'l', 'l'] rest with
        | some r => some (.null, r)
        | none => none
      else if c == '-' then
        match scanDigits rest with
        | ([], _) => none
        | (ds, r) => some (.num (-(digitsVal ds : Int)), r)
      else if isDigitChar c then
        match scanDigits (c :: rest) with
        | (ds, r) => some (.num (digitsVal ds), r)
      else none

/-- Parse the members of a JSON object after the opening brace (whitespace
already dropped); `allowEnd` is false right after a comma, so a trailing comma
is rejected. -/
def parseMembers : Nat → Bool → List Char → Option (List (String × Json) × List Char)
  | 0, _, _ => none
  | f + 1, allowEnd, cs =>
    match cs with
    | [] => none
    | c :: rest =>
      if c == closeBraceChar then
        if allowEnd then some ([], rest) else none
      else if c == quoteChar then
        match scanString rest with
        | some (key, r1) =>
          match dropWs r1 with
          | c2 :: r2 =>
            if c2 == ':' then
              match parseValue f (dropWs r2) with
              | some (v, r3) =>
                match dropWs r3 with
                | c3 :: r4 =>
                  if c3 == ',' then
                    match parseMembers f false (dropWs r4) with
                    | some (ms, r5) => some ((⟨key⟩, v) :: ms, r5)
                    | none => none
                  else if c3 == closeBraceChar then
                    some ([(⟨key⟩, v)], r4)
                  else none
                | [] => none
              | none => none
            else none
          | [] => none
        | none => none
      else none

/-- Parse the elements of a JSON array after the opening bracket (whitespace
already dropped); `allowEnd` is false right after a comma. -/
def parseElems : Nat → Bool → List Char → Option (List Json × List Char)
  | 0, _, _ => none
  | f + 1, allowEnd, cs =>
    match cs with
    | [] => none
    | c :: _ =>
      if c == ']' then
        if allowEnd then some ([], cs.tail) else none
      else
        match parseValue f cs with
        | some (v, r1) =>
          match dropWs r1 with
          | c2 :: r2 =>
            if c2 == ',' then
              match parseElems f false (dropWs r2) with
              | some (es, r3) => some (v :: es, r3)
              | none => none
            else if c2 == ']' then
              some ([v], r2)
            else none
          | [] => none
        | none => none

end

/-- Parse a complete JSON document: one value followed only by whitespace. -/
def Json.parse (s : String) : Option Json :=
  match parseValue (s.length + 2) s.data with
  | some (v, rest) => if (dropWs rest).isEmpty then some v else none
  | none => none

/-! ### The wire format (`osbuild::wire::format`) -/

/-- The wrapper object put on the wire: `struct Envelope` with fields
`r#type: String` and `data: String`. -/
structure Envelope where
  type : String
  data : String
deriving DecidableEq

/-- `struct Message` — a payload type with no fields. -/
structure Message

/-- `struct Method` — a payload type with no fields. -/
structure Method

/-- `struct Reply` — a payload type with no fields. -/
structure Reply

/-- `struct Signal` — a payload type with no fields. -/
structure Signal

/-- `struct Exception` — a payload type with no fields. -/
structure Exception

/-- `Envelope::new` in the source constructs the fixed placeholder envelope. -/
def Envelope.new : Envelope := ⟨"bar", "foo"⟩

/-! ### The JSON Encoding (`impl Encoding for JSON`)

Rust: each `encode_*` is `serde_json::to_string(&x).unwrap().as_bytes().to_vec()`.
serde serializes a braced struct with zero fields as the member-less JSON object
text, so every encoder yields those two bytes.  Each `decode_*` ignores its
input and returns the empty struct. -/

/-- Byte view of an ASCII string (every string in this development is ASCII). -/
def strBytes (s : String) : List Nat := s.data.map Char.toNat

/-- Inverse byte view, for feeding encoder output to a decoder. -/
def bytesStr (bs : List Nat) : String := ⟨bs.map Char.ofNat⟩

/-- The serde_json text of a braced Rust struct with zero fields. -/
def serdeEmptyStructText : String := "\x7b\x7d"

/-- `JSON::encode_message`. -/
def JSON.encode_message (_m : Message) : List Nat := strBytes serdeEmptyStructText

/-- `JSON::decode_message` (returns `Message\x7b\x7d` for every input). -/
def JSON.decode_message (_s : String) : Message := ⟨⟩

/-- `JSON::encode_method`. -/
def JSON.encode_method (_m : Method) : List Nat := strBytes serdeEmptyStructText

/-- `JSON::decode_method` (returns `Method\x7b\x7d` for every input). -/
def JSON.decode_method (_s : String) : Method := ⟨⟩

/-- `JSON::encode_reply`. -/
def JSON.encode_reply (_r : Reply) : List Nat := strBytes serdeEmptyStructText

/-- `JSON::decode_reply` (returns `Reply\x7b\x7d` for every input). -/
def JSON.decode_reply (_s : String) : Reply := ⟨⟩

/-- `JSON::encode_signal`. -/
def JSON.encode_signal (_s : Signal) : List Nat := strBytes serdeEmptyStructText

/-- `JSON::decode_signal` (returns `Signal\x7b\x7d` for every input). -/
def JSON.decode_signal (_s : String) : Signal := ⟨⟩

/-- `JSON::encode_exception`. -/
def JSON.encode_exception (_e : Exception) : List Nat := strBytes serdeEmptyStructText

/-- `JSON::decode_exception` (returns `Exception\x7b\x7d` for every input). -/
def JSON.decode_exception (_s : String) : Exception := ⟨⟩

/-! ### The Transport (`impl Transport for UnixSocket`)

OS socket results are inputs.  A Rust `unwrap`/`expect` abort is an
`Except.error` of type `PanicMsg`; an `io::Result` error a function returns to
its caller is an `IOError` value. -/

/-- An OS-level I/O error (channel closed, backpressure, ...). -/
structure IOError where
  msg : String
deriving DecidableEq

/-- A process abort (Rust panic), as produced by `unwrap`/`expect`. -/
structure PanicMsg where
  msg : String
deriving DecidableEq

/-- The datagrams placed on the channel so far, each as its byte string. -/
structure WireState where
  sent : List String
deriving DecidableEq

/-- `UnixSocket::recv`: performs the OS datagram receive and `unwrap`s it; on an
OS error the process aborts (it never returns an `Err` to its caller), otherwise
it returns `Ok(received)`. -/
def UnixSocket.recv (osRecv : Except IOError Nat) : Except PanicMsg (Except IOError Nat) :=
  match osRecv with
  | .ok n => .ok (.ok n)
  | .error e => .error ⟨"UnixSocket.recv: unwrap on Err: " ++ e.msg⟩

/-- `UnixSocket::send`: takes no caller payload, sends the fixed bytes
`b"hi there!"` and `unwrap`s the OS result; on an OS error the process aborts,
otherwise the fixed datagram is appended to the channel. -/
def UnixSocket.send (st : WireState) (osSend : Except IOError Nat) : Except PanicMsg WireState :=
  match osSend with
  | .ok _ => .ok ⟨st.sent ++ ["hi there!"]⟩
  | .error e => .error ⟨"UnixSocket.send: unwrap on Err: " ++ e.msg⟩

/-! ### The Module Service (`impl Service for HttpSource` and `impl Source`) -/

/-- `HttpSource::main`: one `transport.send()`, one `transport.recv(..)` with
`expect("recv failed")`, then a `println!` and return.  The result pairs the
final channel state with normal termination or the panic. -/
def HttpSource.main (st : WireState) (osSend osRecv : Except IOError Nat) :
    WireState × Except PanicMsg Unit :=
  match UnixSocket.send st osSend with
  | .error p => (st, .error p)
  | .ok st1 =>
    match UnixSocket.recv osRecv with
    | .error p => (st1, .error p)
    | .ok (.ok _) => (st1, .ok ())
    | .ok (.error e) => (st1, .error ⟨"recv failed: " ++ e.msg⟩)

/-- `Source::cached` for `HttpSource`: returns `false` for every checksum. -/
def HttpSource.cached (_checksum : String) : Bool := false

/-- `Source::download` for `HttpSource`: the list of network requests it
performs — the body is empty, so none. -/
def HttpSource.download : List String := []

/-- `Source::download_one` for `HttpSource`: likewise performs no requests. -/
def HttpSource.download_one : List String := []

/-! ### The binary entry point -/

/-- The clap-parsed command-line flags. -/
structure Arguments where
  schema : Bool
  meta : Bool
deriving DecidableEq

/-- How the process run ended: normal exit with its stdout text and exit code,
or a panic. -/
inductive RunResult where
  | exited (stdout : String) (code : Nat)
  | panicked (msg : String)
deriving DecidableEq

/-- Observable outcome of one run of the binary: the run result, the datagrams
placed on the channel, and whether a Transport was ever constructed. -/
structure MainRun where
  result : RunResult
  sent : List String
  channelUsed : Bool
deriving DecidableEq

/-- The text of the `SCHEMA_DATA` raw string in the module binary,
reproduced byte for byte. -/
def SCHEMA_DATA : String :=
  "\"additionalProperties\": false,\n" ++
  "\"definitions\": \x7b\n" ++
  "  \"item\": \x7b\n" ++
  "    \"description\": \"The files to fetch indexed their content checksum\",\n" ++
  "    \"type\": \"object\",\n" ++
  "    \"additionalProperties\": false,\n" ++
  "    \"patternProperties\": \x7b\n" ++
  "      \"(md5|sha1|sha256|sha384|sha512):[0-9a-f]\x7b32,128\x7d\": \x7b\n" ++
  "        \"oneOf\": [\n" ++
  "          \x7b\n" ++
  "            \"type\": \"string\",\n" ++
  "            \"description\": \"URL to download the file from.\"\n" ++
  "          \x7d,\n" ++
  "          \x7b\n" ++
  "            \"type\": \"object\",\n" ++
  "            \"additionalProperties\": false,\n" ++
  "            \"required\": [\n" ++
  "              \"url\"\n" ++
  "            ],\n" ++
  "            \"properties\": \x7b\n" ++
  "              \"url\": \x7b\n" ++
  "                \"type\": \"string\",\n" ++
  "                \"description\": \"URL to download the file from.\"\n" ++
  "              \x7d,\n" ++
  "              \"secrets\": \x7b\n" ++
  "                \"type\": \"object\",\n" ++
  "                \"additionalProperties\": false,\n" ++
  "                \"required\": [\n" ++
  "                  \"name\"\n" ++
  "                ],\n" ++
  "                \"properties\": \x7b\n" ++
  "                  \"name\": \x7b\n" ++
  "                    \"type\": \"string\",\n" ++
  "                    \"description\": \"Name of the secrets provider.\"\n" ++
  "                  \x7d\n" ++
  "                \x7d\n" ++
  "              \x7d\n" ++
  "            \x7d\n" ++
  "          \x7d\n" ++
  "        ]\n" ++
  "      \x7d\n" ++
  "    \x7d\n" ++
  "  \x7d\n" ++
  "\x7d,\n" ++
  "\"properties\": \x7b\n" ++
  "  \"items\": \x7b\"$ref\": \"#/definitions/item\"\x7d,\n" ++
  "  \"urls\": \x7b\"$ref\": \"#/definitions/item\"\x7d\n" ++
  "\x7d,\n" ++
  "\"oneOf\": [\x7b\n" ++
  "  \"required\": [\"items\"]\n" ++
  "\x7d, \x7b\n" ++
  "  \"required\": [\"urls\"]\n" ++
  "\x7d]\n"

/-- The binary `main`: initializes logging (`unwrap`), then either dumps the
schema (`--schema`), dumps "meta!" (`--meta`), or constructs the service
(`expect`) and runs `HttpSource::main`.  OS results are inputs. -/
def rustMain (args : Arguments) (logInitOk : Bool)
    (osConnect : Except IOError Unit) (osSend osRecv : Except IOError Nat) : MainRun :=
  if !logInitOk then ⟨.panicked "stderrlog init: unwrap on Err", [], false⟩
  else if args.schema then ⟨.exited SCHEMA_DATA 0, [], false⟩
  else if args.meta then ⟨.exited "meta!" 0, [], false⟩
  else
    match osConnect with
    | .error _ => ⟨.panicked "Could not connect to socket", [], true⟩
    | .ok _ =>
      let (st, out) := HttpSource.main ⟨[]⟩ osSend osRecv
      match out with
      | .ok _ => ⟨.exited "Service main\n" 0, st.sent, true⟩
      | .error p => ⟨.panicked p.msg, st.sent, true⟩

/-! ### The filesystem utility (`copy_tree`) and its Python binding -/

/-- Abstract directory contents, path to content, as an association list. -/
abbrev FsState := List (String × String)

/-- `copy_tree`: opens `src` and `dst` ambient directories (results are inputs,
propagated with `?`), initializes `count = 0`, copies nothing, and returns
`Ok(count)`.  The filesystem state is threaded to record that it never writes. -/
def copy_tree (fs : FsState) (openSrc openDst : Except IOError Unit) :
    FsState × Except IOError Int :=
  match openSrc with
  | .error e => (fs, .error e)
  | .ok _ =>
    match openDst with
    | .error e => (fs, .error e)
    | .ok _ => (fs, .ok 0)

/-- The Python binding `utility_filesystem_copy_tree`: `unwrap`s the result, so
an open failure aborts the process instead of raising a typed error. -/
def utility_filesystem_copy_tree (fs : FsState) (openSrc openDst : Except IOError Unit) :
    Except PanicMsg (FsState × Int) :=
  match copy_tree fs openSrc openDst with
  | (fs1, .ok n) => .ok (fs1, n)
  | (_, .error e) => .error ⟨"copy_tree: unwrap on Err: " ++ e.msg⟩

/-! ### Envelope decoding, for reasoning about what is on the wire -/

/-- Decode a wire payload as an Envelope: a JSON object with string members
`type` and `data`. -/
def decodeEnvelope (s : String) : Option Envelope :=
  match Json.parse s with
  | some (.obj ms) =>
    match ms.lookup "type", ms.lookup "data" with
    | some (.str t), some (.str d) => some ⟨t, d⟩
    | _, _ => none
  | _ => none

/-- Does the payload decode as a terminal Envelope (a Reply or an Exception)? -/
def isTerminalEnvelope (s : String) : Bool :=
  match decodeEnvelope s with
  | some env => env.type == "Reply" || env.type == "Exception"
  | none => false

/-! ### The dumped schema text, parsed -/

/-- Look up a member of a JSON object. -/
def Json.getMember (j : Json) (k : String) : Option Json :=
  match j with
  | .obj ms => ms.lookup k
  | _ => none

/-- The checksum-key pattern the schema declares for mapping keys. -/
def checksumKeyPat : String := "(md5|sha1|sha256|sha384|sha512):[0-9a-f]\x7b32,128\x7d"

/-- The Method schema the spec describes, written out literally so that the
structural properties claimed of the dump can be read off and compared with the
parse of the dumped text. -/
def expectedMethodSchema : Json :=
  .obj
    [("additionalProperties", .bool false),
     ("definitions",
      .obj
        [("item",
          .obj
            [("description", .str "The files to fetch indexed their content checksum"),
             ("type", .str "object"),
             ("additionalProperties", .bool false),
             ("patternProperties",
              .obj
                [(checksumKeyPat,
                  .obj
                    [("oneOf",
                      .arr
                        [.obj
                           [("type", .str "string"),
                            ("description", .str "URL to download the file from.")],
                         .obj
                           [("type", .str "object"),
                            ("additionalProperties", .bool false),
                            ("required", .arr [.str "url"]),
                            ("properties",
                             .obj
                               [("url",
                                 .obj
                                   [("type", .str "string"),
                                    ("description", .str "URL to download the file from.")]),
                                ("secrets",
                                 .obj
                                   [("type", .str "object"),
                                    ("additionalProperties", .bool false),
                                    ("required", .arr [.str "name"]),
                                    ("properties",
                                     .obj
                                       [("name",
                                         .obj
                                           [("type", .str "string"),
                                            ("description",
                                             .str "Name of the secrets provider.")])])])])]])])])])]),
     ("properties",
      .obj
        [("items", .obj [("$ref", .str "#/definitions/item")]),
         ("urls", .obj [("$ref", .str "#/definitions/item")])]),
     ("oneOf",
      .arr
        [.obj [("required", .arr [.str "items"])],
         .obj [("required", .arr [.str "urls"])]])]

/-- The dumped text wrapped in one pair of braces. -/
def bracedSchemaData : String := "\x7b" ++ SCHEMA_DATA ++ "\x7d"

/-- Does this JSON-schema node set `additionalProperties` to `false`? -/
def addlPropsFalse (j : Json) : Bool :=
  match j.getMember "additionalProperties" with
  | some (.bool false) => true
  | _ => false

/-- Does the schema's `oneOf` make `items` and `urls` mutually exclusive:
exactly the two alternatives, one requiring `items`, the other `urls`? -/
def oneOfItemsUrls (j : Json) : Bool :=
  match j.getMember "oneOf" with
  | some (.arr [a, b]) =>
    Json.beq a (.obj [("required", .arr [.str "items"])])
    && Json.beq b (.obj [("required", .arr [.str "urls"])])
  | _ => false

/-- The schema node for one item mapping (`definitions.item`). -/
def itemNode (j : Json) : Option Json :=
  (j.getMember "definitions").bind (fun d => d.getMember "item")

/-- Does `definitions.item.patternProperties` have the checksum pattern as its
only key? -/
def patternKeyOk (j : Json) : Bool :=
  match (itemNode j).bind (fun it => it.getMember "patternProperties") with
  | some (.obj [(k, _)]) => k == checksumKeyPat
  | _ => false

/-- The object alternative of an item value (`\x7burl, secrets?\x7d`). -/
def objVariantNode (j : Json) : Option Json :=
  ((((itemNode j).bind (fun it => it.getMember "patternProperties")).bind
      (fun pp => pp.getMember checksumKeyPat)).bind
    (fun entry => entry.getMember "oneOf")).bind
    (fun alts => match alts with | .arr [_, v] => some v | _ => none)

/-- The `secrets` schema node inside the object alternative. -/
def secretsNode (j : Json) : Option Json :=
  ((objVariantNode j).bind (fun v => v.getMember "properties")).bind
    (fun p => p.getMember "secrets")

/-- All structural facts of claim C8 that do hold of the dumped text, checked on
the parse of the braced dump: it parses; it equals `expectedMethodSchema` member
for member; `oneOf` requires exactly one of `items`/`urls`; the mapping keys are
constrained by exactly the checksum pattern; `additionalProperties` is `false`
at the top, item, object-variant and secrets levels. -/
def schemaClaimChecks : Bool :=
  match Json.parse bracedSchemaData with
  | none => false
  | some j =>
    Json.beq j expectedMethodSchema
    && oneOfItemsUrls j
    && patternKeyOk j
    && addlPropsFalse j
    && (match itemNode j with | some it => addlPropsFalse it | none => false)
    && (match objVariantNode j with | some v => addlPropsFalse v | none => false)
    && (match secretsNode j with | some sn => addlPropsFalse sn | none => false)

/-! ### Claims -/

/-- C1 counterexample: with both socket operations succeeding, `HttpSource::main`
terminates normally, yet the only message it ever placed on the Transport is the
fixed greeting, which is not a Reply or Exception — so the module's main loop
terminates without having sent any terminal message. -/
theorem c1_counterexample :
    HttpSource.main ⟨[]⟩ (.ok 9) (.ok 5) = (⟨["hi there!"]⟩, .ok ())
    ∧ isTerminalEnvelope "hi there!" = false :=
  ⟨rfl, by decide⟩

/-- C1 (amended): whenever `HttpSource::main` terminates normally it has placed
exactly one more datagram on the channel — the fixed greeting `"hi there!"` —
and that datagram is not a terminal (Reply or Exception) envelope; the main
loop never sends a terminal message. -/
theorem httpSource_main_sends_only_greeting
    (st : WireState) (osSend osRecv : Except IOError Nat)
    (hok : (HttpSource.main st osSend osRecv).2 = .ok ()) :
    (HttpSource.main st osSend osRecv).1.sent = st.sent ++ ["hi there!"]
    ∧ isTerminalEnvelope "hi there!" = false := by
  cases osSend with
  | error e => simp [HttpSource.main, UnixSocket.send] at hok
  | ok n =>
    cases osRecv with
    | error e => simp [HttpSource.main, UnixSocket.send, UnixSocket.recv] at hok
    | ok m =>
      exact ⟨by simp [HttpSource.main, UnixSocket.send, UnixSocket.recv], by decide⟩

/-- C1 witness: the amended statement at a concrete run. -/
theorem httpSource_main_sends_only_greeting_witness :
    (HttpSource.main ⟨["x"]⟩ (.ok 9) (.ok 3)).1.sent = ["x"] ++ ["hi there!"]
    ∧ isTerminalEnvelope "hi there!" = false :=
  httpSource_main_sends_only_greeting ⟨["x"]⟩ (.ok 9) (.ok 3) rfl

/-- C2: for each of the five message kinds, decoding the string obtained from
encoding a value with the JSON Encoding yields that value field-for-field (the
payload structs have no fields, so the decoded empty struct is the value). -/
theorem json_encoding_roundtrip :
    (∀ x : Message, JSON.decode_message (bytesStr (JSON.encode_message x)) = x)
    ∧ (∀ x : Method, JSON.decode_method (bytesStr (JSON.encode_method x)) = x)
    ∧ (∀ x : Reply, JSON.decode_reply (bytesStr (JSON.encode_reply x)) = x)
    ∧ (∀ x : Signal, JSON.decode_signal (bytesStr (JSON.encode_signal x)) = x)
    ∧ (∀ x : Exception, JSON.decode_exception (bytesStr (JSON.encode_exception x)) = x) :=
  ⟨fun _ => rfl, fun _ => rfl, fun _ => rfl, fun _ => rfl, fun _ => rfl⟩

/-- C3 counterexample: the input `"not json"` is malformed (it does not parse as
JSON), yet `JSON::decode_method` returns a Method value for it instead of
failing with a DecodeError — its result type offers no failure outcome at all. -/
theorem c3_counterexample :
    (Json.parse "not json").isNone = true ∧ JSON.decode_method "not json" = ⟨⟩ :=
  ⟨by decide, rfl⟩

/-- C3 (amended): the five decode operations never fail: each is total and
returns the empty value of its message type for every input string, malformed
or not. -/
theorem json_decode_never_fails :
    (∀ s, JSON.decode_message s = ⟨⟩) ∧ (∀ s, JSON.decode_method s = ⟨⟩)
    ∧ (∀ s, JSON.decode_reply s = ⟨⟩) ∧ (∀ s, JSON.decode_signal s = ⟨⟩)
    ∧ (∀ s, JSON.decode_exception s = ⟨⟩) :=
  ⟨fun _ => rfl, fun _ => rfl, fun _ => rfl, fun _ => rfl, fun _ => rfl⟩

/-- C4 counterexample: a successful `UnixSocket::send` places the fixed greeting
`"hi there!"` on the transport, and that payload is not an Envelope. -/
theorem c4_counterexample :
    UnixSocket.send ⟨[]⟩ (.ok 9) = .ok ⟨["hi there!"]⟩
    ∧ (decodeEnvelope "hi there!").isNone = true :=
  ⟨rfl, by decide⟩

/-- C4 (amended): every datagram `UnixSocket::send` ever places on the Transport
is the fixed string `"hi there!"` (it ignores any caller payload), and that
string is not an Envelope. -/
theorem unixSocket_send_payload_not_envelope
    (st st' : WireState) (osSend : Except IOError Nat)
    (h : UnixSocket.send st osSend = .ok st') :
    st'.sent = st.sent ++ ["hi there!"] ∧ (decodeEnvelope "hi there!").isNone = true := by
  cases osSend with
  | error e => simp [UnixSocket.send] at h
  | ok n =>
    simp [UnixSocket.send] at h
    exact ⟨by rw [← h], by decide⟩

/-- C4 witness: the amended statement at a concrete send. -/
theorem unixSocket_send_payload_not_envelope_witness :
    (⟨["hi there!"]⟩ : WireState).sent = ([] : List String) ++ ["hi there!"]
    ∧ (decodeEnvelope "hi there!").isNone = true :=
  unixSocket_send_payload_not_envelope ⟨[]⟩ ⟨["hi there!"]⟩ (.ok 9) rfl

/-- C5 counterexample: when the OS reports the channel closed, `UnixSocket::recv`
does not return an IOError value to its caller — it aborts the process with an
unwrap panic; `UnixSocket::send` does the same on backpressure. -/
theorem c5_counterexample :
    UnixSocket.recv (.error ⟨"channel closed"⟩)
      = .error ⟨"UnixSocket.recv: unwrap on Err: channel closed"⟩
    ∧ UnixSocket.send ⟨[]⟩ (.error ⟨"backpressure"⟩)
      = .error ⟨"UnixSocket.send: unwrap on Err: backpressure"⟩ :=
  ⟨rfl, rfl⟩

/-- C5 (amended): on success `recv` returns the received byte count; on an OS
error both `recv` and `send` abort the process with a panic instead of returning
an IOError — in particular `recv` never returns an `Err` value to its caller. -/
theorem unixSocket_io_error_aborts :
    (∀ n, UnixSocket.recv (.ok n) = .ok (.ok n))
    ∧ (∀ e, ∃ p, UnixSocket.recv (.error e) = .error p)
    ∧ (∀ st e, ∃ p, UnixSocket.send st (.error e) = .error p)
    ∧ (∀ osRecv r, UnixSocket.recv osRecv = .ok r → ∃ n, r = .ok n) := by
  refine ⟨fun n => rfl, fun e => ⟨_, rfl⟩, fun st e => ⟨_, rfl⟩, fun osRecv r h => ?_⟩
  cases osRecv with
  | ok n => exact ⟨n, by simpa [UnixSocket.recv] using h.symm⟩
  | error e => simp [UnixSocket.recv] at h

/-- C5 witness: the amended statement at concrete inputs. -/
theorem unixSocket_io_error_aborts_witness :
    UnixSocket.recv (.ok 7) = .ok (.ok 7)
    ∧ ∃ n, (Except.ok 7 : Except IOError Nat) = .ok n :=
  ⟨unixSocket_io_error_aborts.1 7,
   unixSocket_io_error_aborts.2.2.2 (.ok 7) (.ok 7) rfl⟩

/-- C6 counterexample: the download stub performs no work and inserts nothing
into any cache, and `Source::cached` still answers `false` for a key after a
fetch of that key — the second fetch is never resolved as a cache hit. -/
theorem c6_counterexample :
    HttpSource.download = [] ∧
    HttpSource.cached
      "sha256:0000000000000000000000000000000000000000000000000000000000000000" = false :=
  ⟨rfl, rfl⟩

/-- C6 (amended): `Source::cached` returns `false` for every checksum key, and
the download operations perform no network requests at all; so two consecutive
fetches of a key trivially perform network I/O at most once (namely zero times),
but the Content Cache never contains the key and the second fetch is not a cache
hit. -/
theorem httpSource_cache_stub :
    (∀ c, HttpSource.cached c = false)
    ∧ HttpSource.download = [] ∧ HttpSource.download_one = [] :=
  ⟨fun _ => rfl, rfl, rfl⟩

/-- C7: with logging initialized, `--schema` prints exactly the schema text and
exits 0 having constructed no Transport and placed nothing on any channel;
`--meta` (without `--schema`) likewise prints the meta text and exits 0 with no
channel contact. -/
theorem main_schema_meta_no_channel
    (args : Arguments) (osConnect : Except IOError Unit) (osSend osRecv : Except IOError Nat) :
    (args.schema = true →
      rustMain args true osConnect osSend osRecv = ⟨.exited SCHEMA_DATA 0, [], false⟩)
    ∧ (args.schema = false → args.meta = true →
      rustMain args true osConnect osSend osRecv = ⟨.exited "meta!" 0, [], false⟩) := by
  constructor
  · intro hs; simp [rustMain, hs]
  · intro hs hm; simp [rustMain, hs, hm]

/-- C7 witness: both flag combinations at concrete inputs. -/
theorem main_schema_meta_no_channel_witness :
    rustMain ⟨true, false⟩ true (.ok ()) (.ok 1) (.ok 1) = ⟨.exited SCHEMA_DATA 0, [], false⟩
    ∧ rustMain ⟨false, true⟩ true (.ok ()) (.ok 1) (.ok 1) = ⟨.exited "meta!" 0, [], false⟩ :=
  ⟨(main_schema_meta_no_channel ⟨true, false⟩ (.ok ()) (.ok 1) (.ok 1)).1 rfl,
   (main_schema_meta_no_channel ⟨false, true⟩ (.ok ()) (.ok 1) (.ok 1)).2 rfl rfl⟩

/-- C8 counterexample: the dumped text is not a well-formed JSON document: it is
a brace-less fragment, and parsing it fails. -/
theorem c8_counterexample : (Json.parse SCHEMA_DATA).isNone = true := by decide

/-- C8 (amended): the dumped text is the body of a JSON object rather than a
complete document; wrapped in one pair of braces it parses to exactly the
expected Method schema, whose `oneOf` requires exactly one of `items`/`urls`,
whose mapping keys are constrained by exactly the checksum pattern
`(md5|sha1|sha256|sha384|sha512):[0-9a-f]\x7b32,128\x7d`, whose values are a
bare URL string or an object with `url` and optional `secrets.name`, and which
sets `additionalProperties: false` at the top, item, object-variant and secrets
levels. -/
theorem schema_data_structure : schemaClaimChecks = true := by decide

/-- C9: `copy_tree` never modifies the filesystem; when both directory opens
succeed it returns `Ok(0)` (it copies nothing and the count is zero); it
returns an error exactly when opening `src` or `dst` fails, and that error is
the failing open's own error. -/
theorem copy_tree_spec (fs : FsState) (s d : Except IOError Unit) :
    (copy_tree fs s d).1 = fs
    ∧ ((∃ e, (copy_tree fs s d).2 = .error e) ↔ (∃ e, s = .error e) ∨ (∃ e, d = .error e))
    ∧ (∀ u v, s = .ok u → d = .ok v → (copy_tree fs s d).2 = .ok 0)
    ∧ (∀ e, (copy_tree fs s d).2 = .error e → s = .error e ∨ d = .error e) := by
  cases s <;> cases d <;> simp [copy_tree]

/-- C9 witness: both opens succeeding at a concrete filesystem. -/
theorem copy_tree_spec_witness :
    (copy_tree [("a", "x")] (.ok ()) (.ok ())).2 = .ok 0 :=
  (copy_tree_spec [("a", "x")] (.ok ()) (.ok ())).2.2.1 () () rfl rfl

/-- C10: every encode operation returns exactly the two bytes 123, 125 — the
text of the member-less JSON object — for every input value, and every decode
operation is total and returns the unique empty value of its message type for
every input string; all ten operations are constant, hence deterministic. -/
theorem json_encoding_constant :
    (∀ x : Message, JSON.encode_message x = [123, 125])
    ∧ (∀ x : Method, JSON.encode_method x = [123, 125])
    ∧ (∀ x : Reply, JSON.encode_reply x = [123, 125])
    ∧ (∀ x : Signal, JSON.encode_signal x = [123, 125])
    ∧ (∀ x : Exception, JSON.encode_exception x = [123, 125])
    ∧ strBytes serdeEmptyStructText = [123, 125]
    ∧ (∀ s, JSON.decode_message s = Message.mk) ∧ (∀ s, JSON.decode_method s = Method.mk)
    ∧ (∀ s, JSON.decode_reply s = Reply.mk) ∧ (∀ s, JSON.decode_signal s = Signal.mk)
    ∧ (∀ s, JSON.decode_exception s = Exception.mk) :=
  ⟨fun _ => rfl, fun _ => rfl, fun _ => rfl, fun _ => rfl, fun _ => rfl, rfl,
   fun _ => rfl, fun _ => rfl, fun _ => rfl, fun _ => rfl, fun _ => rfl⟩
